import Mathlib

/-!
Verification of the risk-fusion and classification core of the
`phising-email-detector` repository, shallowly embedded in Lean 4.

Python floats are modelled as rationals (`ℚ`); all constants of the source
are exact decimals, so rational arithmetic reproduces the intended values.
`Optional[T]` becomes `Option T`, Python exceptions become `Except`.
-/

namespace PhishingDetector

/-- `RiskLevel` enum from `schemas/response_schemas.py`. -/
inductive RiskLevel where
  | LOW | MEDIUM | HIGH | CRITICAL
deriving DecidableEq, Repr

/-- `IndicatorType` enum from `schemas/response_schemas.py`. -/
inductive IndicatorType where
  | URL | EMAIL | DOMAIN | CONTENT | HEADER | ATTACHMENT
deriving DecidableEq, Repr

/-- `SuspiciousIndicator` model from `schemas/response_schemas.py`. -/
structure SuspiciousIndicator where
  type : IndicatorType
  value : String
  reason : String
  confidence : ℚ
  location : Option String := none
deriving DecidableEq, Repr

/-- `DeterministicChecks` model from `schemas/response_schemas.py`. -/
structure DeterministicChecks where
  spf_pass : Option Bool := none
  dkim_pass : Option Bool := none
  dmarc_pass : Option Bool := none
  sender_reputation : Option ℚ := none
  suspicious_urls_count : ℕ := 0
  suspicious_attachments_count : ℕ := 0
  score : ℚ
deriving DecidableEq, Repr

/-- `GeminiAnalysis` model from `schemas/response_schemas.py`. -/
structure GeminiAnalysis where
  phishing_likelihood : ℚ
  reasoning : String
  key_concerns : List String := []
  linguistic_patterns : List String := []
  model_confidence : ℚ
deriving DecidableEq, Repr

/-- `EmailMetadata` model from `schemas/response_schemas.py` (the
`received_date : datetime` field is omitted: no claim touches it). -/
structure EmailMetadata where
  sender : Option String := none
  reply_to : Option String := none
  subject : Option String := none
  message_id : Option String := none
  return_path : Option String := none
  received_spf : Option String := none
  authentication_results : Option String := none
  links : List String := []
  attachments : List String := []
deriving DecidableEq, Repr

/-- `PhishingAnalysisResponse` model from `schemas/response_schemas.py`
(the wall-clock `analysis_timestamp` field is omitted: no claim touches it). -/
structure PhishingAnalysisResponse where
  risk_score : ℚ
  risk_level : RiskLevel
  is_phishing : Bool
  email_metadata : EmailMetadata
  deterministic_checks : DeterministicChecks
  gemini_analysis : GeminiAnalysis
  suspicious_indicators : List SuspiciousIndicator := []
  annotated_body_html : Option String := none
  clean_body_text : Option String := none
  processing_time_ms : Option ℚ := none
  version : String := "1.0.0"
deriving DecidableEq, Repr

/-- The scoring-relevant fields of `config.Settings` with their defaults
(`config.py`). -/
structure Settings where
  deterministic_weight : ℚ := 6/10
  gemini_weight : ℚ := 4/10
  high_risk_threshold : ℚ := 70
  medium_risk_threshold : ℚ := 40
deriving DecidableEq, Repr

/-- The default configuration (`config.py` field defaults, no overrides). -/
def defaultSettings : Settings := {}

/-- Python's `round` on a number exactly representable in ℚ: round half to
even (banker's rounding), as CPython does. -/
def pyRound (x : ℚ) : ℤ :=
  let f := ⌊x⌋
  let r := x - f
  if r < 1/2 then f
  else if 1/2 < r then f + 1
  else if f % 2 = 0 then f else f + 1

/-- Python's `round(x, 1)`: round to one decimal place. -/
def round1 (x : ℚ) : ℚ := (pyRound (10 * x) : ℚ) / 10

theorem pyRound_nonneg (x : ℚ) (hx : 0 ≤ x) : 0 ≤ pyRound x := by
  have hf : 0 ≤ ⌊x⌋ := Int.floor_nonneg.mpr hx
  unfold pyRound
  dsimp only
  split_ifs <;> omega

theorem pyRound_le (x : ℚ) (n : ℤ) (h : x ≤ (n : ℚ)) : pyRound x ≤ n := by
  have hf : ⌊x⌋ ≤ n := by
    have := Int.floor_le_floor h
    rwa [Int.floor_intCast] at this
  have hfl : (⌊x⌋ : ℚ) ≤ x := Int.floor_le x
  unfold pyRound
  dsimp only
  split_ifs with h1 h2 h3
  · exact hf
  all_goals {
    rcases lt_or_eq_of_le hf with hlt | heq
    · omega
    · exfalso
      rw [heq] at h1 hfl
      push_neg at h1
      linarith }

theorem round1_nonneg (x : ℚ) (hx : 0 ≤ x) : 0 ≤ round1 x := by
  unfold round1
  have h10 : (0 : ℚ) ≤ 10 * x := by linarith
  have := pyRound_nonneg (10 * x) h10
  have hcast : (0 : ℚ) ≤ (pyRound (10 * x) : ℚ) := by exact_mod_cast this
  linarith

theorem round1_le_100 (x : ℚ) (hx : x ≤ 100) : round1 x ≤ 100 := by
  unfold round1
  have h10 : 10 * x ≤ ((1000 : ℤ) : ℚ) := by push_cast; linarith
  have := pyRound_le (10 * x) 1000 h10
  have hcast : (pyRound (10 * x) : ℚ) ≤ 1000 := by exact_mod_cast this
  linarith

/-- `RiskScorer._classify_risk` (`models/risk_scorer.py`): risk level and
phishing flag from a final score, with configured thresholds. -/
def classify_risk (s : Settings) (score : ℚ) : RiskLevel × Bool :=
  if score ≥ 90 then (RiskLevel.CRITICAL, true)
  else if score ≥ s.high_risk_threshold then (RiskLevel.HIGH, true)
  else if score ≥ s.medium_risk_threshold then (RiskLevel.MEDIUM, false)
  else (RiskLevel.LOW, false)

/-- `RiskScorer.calculate_final_score` (`models/risk_scorer.py`): weighted
blend of the deterministic and Gemini scores, with confidence-based
reweighting, clamping, classification and rounding to one decimal. -/
def calculate_final_score (s : Settings) (deterministic_checks : DeterministicChecks)
    (gemini_analysis : GeminiAnalysis) : ℚ × RiskLevel × Bool :=
  let deterministic_score := deterministic_checks.score
  let gemini_score := gemini_analysis.phishing_likelihood
  let final_score :=
    deterministic_score * s.deterministic_weight + gemini_score * s.gemini_weight
  let confidence_factor := gemini_analysis.model_confidence
  let final_score :=
    if confidence_factor < 1/2 then
      let adjusted_weight := min (8/10) (s.deterministic_weight + 2/10)
      deterministic_score * adjusted_weight + gemini_score * (1 - adjusted_weight)
    else final_score
  let final_score := max 0 (min 100 final_score)
  let rl := classify_risk s final_score
  (round1 final_score, rl.1, rl.2)

/-- The `type_weights` dictionary of
`DeterministicChecker._calculate_deterministic_score`
(`models/deterministic_checker.py`): the Python dict lists URL, EMAIL,
ATTACHMENT, CONTENT and HEADER, and `dict.get(type, 0.7)` gives every other
kind (that is, DOMAIN) the default weight 0.7. -/
def type_weights : IndicatorType → ℚ
  | IndicatorType.URL => 1
  | IndicatorType.EMAIL => 8/10
  | IndicatorType.ATTACHMENT => 12/10
  | IndicatorType.CONTENT => 7/10
  | IndicatorType.HEADER => 5/10
  | IndicatorType.DOMAIN => 7/10

/-- `DeterministicChecker._calculate_deterministic_score`
(`models/deterministic_checker.py`): neutral baseline 50, authentication
term, reputation term, capped indicator-penalty term, clamp to [0,100] and
round to one decimal. -/
def calculate_deterministic_score (spf_pass dkim_pass dmarc_pass : Option Bool)
    (sender_reputation : Option ℚ) (indicators : List SuspiciousIndicator) : ℚ :=
  let score : ℚ := 50
  let auth_weight : ℚ := 30
  let auth_checks : ℕ :=
    (if spf_pass.isSome then 1 else 0) + (if dkim_pass.isSome then 1 else 0) +
      (if dmarc_pass.isSome then 1 else 0)
  let auth_penalties : ℕ :=
    (if spf_pass = some false then 1 else 0) + (if dkim_pass = some false then 1 else 0) +
      (if dmarc_pass = some false then 1 else 0)
  let score :=
    if auth_checks > 0 then
      let auth_score := ((auth_checks : ℚ) - (auth_penalties : ℚ)) / (auth_checks : ℚ)
      score + (auth_score - 1/2) * auth_weight
    else score
  let score :=
    match sender_reputation with
    | some rep => score + (rep - 1/2) * 20
    | none => score
  let score :=
    if indicators ≠ [] then
      let indicator_penalty :=
        indicators.foldl
          (fun acc indicator => acc + indicator.confidence * type_weights indicator.type * 10) 0
      let indicator_penalty := min indicator_penalty 40
      score + indicator_penalty
    else score
  let score := max 0 (min 100 score)
  round1 score

/-- `GeminiAnalyzer._get_default_analysis` (`models/gemini_analyzer.py`):
the neutral analysis returned when the Gemini client was never initialized,
and by the generic exception handlers of `_parse_gemini_response` (lines
195-197) and `_extract_fallback_from_text` (lines 233-235). -/
def get_default_analysis : GeminiAnalysis :=
  { phishing_likelihood := 50
    reasoning := "Unable to perform semantic analysis (Gemini unavailable)"
    key_concerns := ["Analysis incomplete"]
    linguistic_patterns := []
    model_confidence := 1/10 }

/-- `GeminiAnalyzer._get_fallback_analysis` (`models/gemini_analyzer.py`):
the analysis returned when the Gemini API call raises; likelihood is derived
from the prior deterministic indicators whose confidence exceeds 0.7. -/
def get_fallback_analysis (deterministic_indicators : List SuspiciousIndicator) :
    GeminiAnalysis :=
  let score : ℚ := 50
  let concerns : List String := []
  let high_confidence_indicators :=
    deterministic_indicators.filter (fun ind => decide (ind.confidence > 7/10))
  let sc :=
    if deterministic_indicators ≠ [] ∧ high_confidence_indicators ≠ [] then
      (min 80 (50 + (high_confidence_indicators.length : ℚ) * 10),
        (high_confidence_indicators.take 3).map
          (fun ind => "Deterministic indicator: " ++ ind.reason))
    else (score, concerns)
  { phishing_likelihood := sc.1
    reasoning := "Analysis based on deterministic indicators only (Gemini unavailable)"
    key_concerns := sc.2
    linguistic_patterns := []
    model_confidence := 4/10 }

/-- `GeminiAnalyzer._extract_fallback_from_text` (`models/gemini_analyzer.py`):
the best-effort analysis built from a non-JSON provider response. The two
`re` searches run in the external regex engine, so their outcomes are
inputs of the embedding: `score_match` is the float value of the first
capture of the score regex when one exists, and `concern_matches` is the
accumulated (two-per-pattern) list of concern-phrase matches. -/
def extract_fallback_from_text (score_match : Option ℚ)
    (concern_matches : List String) (response_text : String) : GeminiAnalysis :=
  let phishing_likelihood : ℚ := 50
  let phishing_likelihood :=
    match score_match with
    | some s => max 0 (min 100 s)
    | none => phishing_likelihood
  { phishing_likelihood := phishing_likelihood
    reasoning :=
      if response_text.length > 500 then String.mk (response_text.data.take 500) ++ "..."
      else response_text
    key_concerns := concern_matches.take 5
    linguistic_patterns := []
    model_confidence := 3/10 }

/-- The provider-failure legs of `GeminiAnalyzer.analyze_email` /
`_parse_gemini_response` (`models/gemini_analyzer.py`):
`api_error` — the `generate_content` call raises (timeout, network, API
error), recovered by `_get_fallback_analysis`;
`non_json` — `json.loads` raises `JSONDecodeError` on the response,
recovered by `_extract_fallback_from_text` (the regex outcomes carried as
data);
`extraction_error` — any other exception while extracting fields from the
parsed JSON (lines 195-197) or inside the text extraction itself (lines
233-235), recovered by `_get_default_analysis`;
`uninitialized` — the client was never initialized (unavailable), answered
by `_get_default_analysis`. -/
inductive GeminiFailure where
  | api_error
  | non_json (score_match : Option ℚ) (concern_matches : List String) (response_text : String)
  | extraction_error
  | uninitialized
deriving DecidableEq

/-- The analysis the fusion engine receives on each provider-failure leg:
the dispatch of `analyze_email` / `_parse_gemini_response`
(`models/gemini_analyzer.py`). -/
def gemini_failure_result (deterministic_indicators : List SuspiciousIndicator) :
    GeminiFailure → GeminiAnalysis
  | GeminiFailure.api_error => get_fallback_analysis deterministic_indicators
  | GeminiFailure.non_json score_match concern_matches response_text =>
      extract_fallback_from_text score_match concern_matches response_text
  | GeminiFailure.extraction_error => get_default_analysis
  | GeminiFailure.uninitialized => get_default_analysis

/-- Checks whether the character list `needle` occurs as a prefix of `hay`
(helper for modelling Python's `in` substring operator). -/
def charsPrefix : List Char → List Char → Bool
  | [], _ => true
  | _ :: _, [] => false
  | a :: as, b :: bs => a = b && charsPrefix as bs

/-- Python's `needle in hay` substring test on strings. -/
def str_contains (hay needle : String) : Bool :=
  (List.range (hay.data.length + 1)).any
    (fun i => charsPrefix needle.data (hay.data.drop i))

/-- Python's `str.lower()`, faithful on the ASCII strings this code handles
(defined structurally on the character list so it evaluates in proofs). -/
def py_lower (s : String) : String := String.mk (s.data.map Char.toLower)

/-- Python's `str.endswith(suffix)` (defined structurally on the character
list so it evaluates in proofs). -/
def ends_with (s suffix : String) : Bool :=
  charsPrefix suffix.data.reverse s.data.reverse

/-- The `additional_context` dictionary as read by
`RiskScorer.adjust_score_for_context`: Python's `context.get(key, '')`
defaults each absent key to the empty string, so the three consulted keys
are modelled as total string fields. -/
structure Context where
  user_bank : String := ""
  email_content : String := ""
  user_account_type : String := ""
deriving DecidableEq, Repr

/-- `RiskScorer.adjust_score_for_context` (`models/risk_scorer.py`).
The Python body reads `datetime.utcnow().hour`; that ambient wall-clock
read is made explicit as the `current_hour` argument of the embedding. -/
def adjust_score_for_context (base_score : ℚ) (context : Context)
    (current_hour : ℕ) : ℚ :=
  let adjusted_score := base_score
  let user_bank := py_lower context.user_bank
  let email_content := py_lower context.email_content
  let adjusted_score :=
    if user_bank ≠ "" ∧ str_contains email_content user_bank = true then
      adjusted_score + 5
    else adjusted_score
  let adjusted_score :=
    if current_hour < 6 ∨ current_hour > 22 then adjusted_score + 3
    else adjusted_score
  let adjusted_score :=
    if context.user_account_type = "business" ∧
        str_contains (py_lower context.email_content) "personal" = true then
      adjusted_score + 5
    else adjusted_score
  max 0 (min 100 adjusted_score)

/-- Python's `f"{x:.1f}"` formatting for a nonnegative value (CPython
rounds half to even when formatting). -/
def format1 (x : ℚ) : String :=
  let n := (pyRound (10 * x)).toNat
  toString (n / 10) ++ "." ++ toString (n % 10)

/-- The context-adjustment step of the single-item endpoint `analyze_email`
(`app.py`, lines 149-160): the Gemini analysis record after the adjustment
has been applied. When the adjusted score differs from the original, the
likelihood is replaced and the original/adjusted pair is appended to the
reasoning text. -/
def apply_context_adjustment (gemini_analysis : GeminiAnalysis) (context : Context)
    (current_hour : ℕ) : GeminiAnalysis :=
  let original_score := gemini_analysis.phishing_likelihood
  let adjusted_score := adjust_score_for_context original_score context current_hour
  if adjusted_score ≠ original_score then
    { gemini_analysis with
        phishing_likelihood := adjusted_score
        reasoning := gemini_analysis.reasoning ++ " (Score adjusted from " ++
          format1 original_score ++ " to " ++ format1 adjusted_score ++
          " based on context)" }
  else gemini_analysis

/-- The context-adjustment step of `analyze_email_sync` (`app.py`, lines
297-306, the bulk path): the likelihood is replaced but nothing is appended
to the reasoning text. -/
def apply_context_adjustment_sync (gemini_analysis : GeminiAnalysis) (context : Context)
    (current_hour : ℕ) : GeminiAnalysis :=
  let original_score := gemini_analysis.phishing_likelihood
  let adjusted_score := adjust_score_for_context original_score context current_hour
  if adjusted_score ≠ original_score then
    { gemini_analysis with phishing_likelihood := adjusted_score }
  else gemini_analysis

/-- `EmailAnalysisRequest` from `schemas/request_schemas.py`. -/
structure EmailAnalysisRequest where
  raw_email : String
  sender_email : Option String := none
  subject : Option String := none
  additional_context : Option Context := none
deriving DecidableEq, Repr

/-- `create_error_response` (`app.py`): the synthetic degraded assessment
substituted for an item whose pipeline raised. -/
def create_error_response (error_message : String) : PhishingAnalysisResponse :=
  { risk_score := 50
    risk_level := RiskLevel.MEDIUM
    is_phishing := false
    email_metadata := {}
    deterministic_checks := { score := 50 }
    gemini_analysis :=
      { phishing_likelihood := 50
        reasoning := "Analysis failed: " ++ error_message
        key_concerns := ["Analysis error"]
        linguistic_patterns := []
        model_confidence := 0 }
    suspicious_indicators := []
    processing_time_ms := some 0 }

/-- The per-item orchestration of `analyze_emails_bulk` (`app.py`).
`pipeline` stands for `analyze_email_sync`; an exception raised anywhere in
an item's pipeline is `Except.error`. The semaphore / `run_in_executor` /
`asyncio.gather` machinery is modelled as an order-preserving map: `gather`
returns results index-aligned with its input tasks, and each task either
yields its response or is replaced by `create_error_response`. -/
def analyze_emails_bulk
    (pipeline : EmailAnalysisRequest → Except String PhishingAnalysisResponse)
    (emails : List EmailAnalysisRequest) : List PhishingAnalysisResponse :=
  emails.map (fun email_request =>
    match pipeline email_request with
    | Except.ok response => response
    | Except.error msg => create_error_response msg)

/-- `URLValidator.SUSPICIOUS_TLDS` (`utils/validators.py`), as a list (the
Python set's iteration order only permutes the appended reasons; the
accumulated confidence is order-independent). -/
def SUSPICIOUS_TLDS : List String :=
  [".tk", ".ml", ".ga", ".cf", ".top", ".click", ".download", ".stream",
   ".science", ".racing", ".review", ".date", ".faith", ".cricket"]

/-- `URLValidator.LEGITIMATE_DOMAINS` (`utils/validators.py`): the
banking/financial allow-list. -/
def LEGITIMATE_DOMAINS : List String :=
  ["chase.com", "bankofamerica.com", "wellsfargo.com", "citi.com",
   "usbank.com", "pnc.com", "capitalone.com", "td.com", "regions.com",
   "suntrust.com", "ally.com", "americanexpress.com", "discover.com",
   "paypal.com", "venmo.com", "zelle.com"]

/-- `URLValidator._check_homograph_attack` (`utils/validators.py`): any of
the listed Cyrillic look-alike characters occurs in the domain. -/
def check_homograph_attack (domain : String) : Bool :=
  ['а', 'е', 'о', 'р', 'с', 'х', 'у'].any (fun c => domain.data.contains c)

/-- A URL as `URLValidator.analyze_url` sees it after the external library
calls: `url` is the raw string, `valid` is `validators.url(url)`, `netloc`
and `path` are `urlparse(url).netloc` / `.path`, and `pattern_matches`
records, for each of the six `SUSPICIOUS_PATTERNS` regexes, whether
`re.search(pattern, url, IGNORECASE)` matched (the regex engine is an
external collaborator). -/
structure ParsedUrl where
  url : String
  valid : Bool
  netloc : String
  path : String
  pattern_matches : List Bool
deriving DecidableEq, Repr

/-- The keyword alternation of the path regex
`(login|signin|verify|update|confirm|secure)` in `URLValidator.analyze_url`:
a plain substring search for any of the six literals. -/
def path_keywords : List String :=
  ["login", "signin", "verify", "update", "confirm", "secure"]

/-- `URLValidator.analyze_url` (`utils/validators.py`): returns
`(is_suspicious, confidence, reasons)`. The legitimate-domain allow-list
check is a `str.endswith` suffix test on the lowered netloc and returns
early, before any other signal is consulted. -/
def analyze_url (u : ParsedUrl) : Bool × ℚ × List String :=
  if u.valid = false then (true, 9/10, ["Invalid URL format"])
  else
    let domain := py_lower u.netloc
    let path := py_lower u.path
    if LEGITIMATE_DOMAINS.any (fun legitimate => ends_with domain legitimate) then
      (false, 1/10, ["Legitimate domain"])
    else
      let confidence : ℚ := 0
      let reasons : List String := []
      let cr :=
        SUSPICIOUS_TLDS.foldl
          (fun cr tld =>
            if ends_with domain tld then
              (cr.1 + 3/10, cr.2 ++ ["Suspicious TLD: " ++ tld])
            else cr)
          (confidence, reasons)
      let cr :=
        u.pattern_matches.foldl
          (fun cr matched =>
            if matched then (cr.1 + 1/4, cr.2 ++ ["Suspicious pattern detected"])
            else cr)
          cr
      let cr :=
        if check_homograph_attack domain then
          (cr.1 + 2/5, cr.2 ++ ["Potential homograph attack"])
        else cr
      let cr :=
        if u.url.length > 150 then (cr.1 + 1/5, cr.2 ++ ["Unusually long URL"])
        else cr
      let subdomain_count := (domain.data.filter (fun c => c = '.')).length
      let cr :=
        if subdomain_count > 3 then
          (cr.1 + 3/10, cr.2 ++ ["Excessive subdomains (" ++ toString subdomain_count ++ ")"])
        else cr
      let cr :=
        if path_keywords.any (fun kw => str_contains path kw) then
          (cr.1 + 1/5, cr.2 ++ ["Suspicious path keywords"])
        else cr
      let confidence := min cr.1 1
      (decide (confidence > 3/10), confidence, cr.2)

theorem defaultSettings_dw : defaultSettings.deterministic_weight = 6/10 := rfl

theorem defaultSettings_gw : defaultSettings.gemini_weight = 4/10 := rfl

theorem defaultSettings_high : defaultSettings.high_risk_threshold = 70 := rfl

theorem defaultSettings_medium : defaultSettings.medium_risk_threshold = 40 := rfl

theorem pyRound_intCast (n : ℤ) : pyRound (n : ℚ) = n := by
  unfold pyRound
  norm_num

theorem round1_div10 (n : ℤ) : round1 ((n : ℚ) / 10) = (n : ℚ) / 10 := by
  unfold round1
  have h : (10 : ℚ) * ((n : ℚ) / 10) = (n : ℚ) := by ring
  rw [h, pyRound_intCast]

theorem round1_intCast (n : ℤ) : round1 ((n : ℚ)) = (n : ℚ) := by
  have h := round1_div10 (n * 10)
  push_cast at h
  rw [mul_div_assoc] at h
  norm_num at h
  exact h

/-- C1: with the default weights 0.6/0.4, `calculate_final_score` returns
the blend `d×Wd + s×Wg` (clamped to [0,100] and rounded to one decimal, per
§4.3 steps 4-5 of the spec); when the Gemini confidence is below 0.5 the
first blend is discarded and recomputed with `Wd' = min(0.8, Wd+0.2)` and
`Wg' = 1 − Wd'`; and the two quoted scenarios give (83.0, HIGH, flagged)
and (56.0, MEDIUM, not flagged). -/
theorem C1_final_score_blend :
    (∀ (d : DeterministicChecks) (g : GeminiAnalysis), g.model_confidence < 1/2 →
      calculate_final_score defaultSettings d g =
        (round1 (max 0 (min 100 (d.score * min (8/10) (6/10 + 2/10) +
            g.phishing_likelihood * (1 - min (8/10) (6/10 + 2/10))))),
         classify_risk defaultSettings (max 0 (min 100 (d.score * min (8/10) (6/10 + 2/10) +
            g.phishing_likelihood * (1 - min (8/10) (6/10 + 2/10))))))) ∧
    (∀ (d : DeterministicChecks) (g : GeminiAnalysis), ¬ g.model_confidence < 1/2 →
      calculate_final_score defaultSettings d g =
        (round1 (max 0 (min 100 (d.score * (6/10) + g.phishing_likelihood * (4/10)))),
         classify_risk defaultSettings
           (max 0 (min 100 (d.score * (6/10) + g.phishing_likelihood * (4/10)))))) ∧
    calculate_final_score defaultSettings { score := 80 }
      { phishing_likelihood := 95, reasoning := "", model_confidence := 3/10 } =
      (83, RiskLevel.HIGH, true) ∧
    calculate_final_score defaultSettings { score := 80 }
      { phishing_likelihood := 20, reasoning := "", model_confidence := 9/10 } =
      (56, RiskLevel.MEDIUM, false) := by
  refine ⟨?_, ?_, ?_, ?_⟩
  · intro d g hg
    simp only [calculate_final_score, defaultSettings_dw, defaultSettings_gw, classify_risk, defaultSettings_high, defaultSettings_medium, if_pos hg]
  · intro d g hg
    simp only [calculate_final_score, defaultSettings_dw, defaultSettings_gw, classify_risk, defaultSettings_high, defaultSettings_medium, if_neg hg]
  · have h : round1 ((83 : ℚ)) = 83 := by exact_mod_cast round1_intCast 83
    norm_num [calculate_final_score, defaultSettings_dw, defaultSettings_gw, classify_risk, defaultSettings_high, defaultSettings_medium, h]
  · have h : round1 ((56 : ℚ)) = 56 := by exact_mod_cast round1_intCast 56
    norm_num [calculate_final_score, defaultSettings_dw, defaultSettings_gw, classify_risk, defaultSettings_high, defaultSettings_medium, h]

/-- Witness for C1: the low-confidence branch applied at the concrete
scenario deterministic=80, likelihood=95, confidence=0.3. -/
theorem C1_final_score_blend_witness :
    calculate_final_score defaultSettings { score := 80 }
      { phishing_likelihood := 95, reasoning := "", model_confidence := 3/10 } =
      (round1 (max 0 (min 100 ((80 : ℚ) * min (8/10) (6/10 + 2/10) +
          95 * (1 - min (8/10) (6/10 + 2/10))))),
       classify_risk defaultSettings (max 0 (min 100 ((80 : ℚ) * min (8/10) (6/10 + 2/10) +
          95 * (1 - min (8/10) (6/10 + 2/10)))))) :=
  C1_final_score_blend.1 { score := 80 }
    { phishing_likelihood := 95, reasoning := "", model_confidence := 3/10 } (by norm_num)

/-- C2: with default thresholds the classifier returns CRITICAL for scores
≥ 90, HIGH on [70, 90), MEDIUM on [40, 70) and LOW below 40; the phishing
flag is set exactly for HIGH and CRITICAL (never MEDIUM); and the quoted
boundary cases 69.999 / 70.0 / 89.999 / 90.0 behave as stated. -/
theorem C2_classification :
    (∀ x : ℚ, 90 ≤ x → classify_risk defaultSettings x = (RiskLevel.CRITICAL, true)) ∧
    (∀ x : ℚ, 70 ≤ x → x < 90 → classify_risk defaultSettings x = (RiskLevel.HIGH, true)) ∧
    (∀ x : ℚ, 40 ≤ x → x < 70 → classify_risk defaultSettings x = (RiskLevel.MEDIUM, false)) ∧
    (∀ x : ℚ, x < 40 → classify_risk defaultSettings x = (RiskLevel.LOW, false)) ∧
    (∀ x : ℚ, (classify_risk defaultSettings x).2 = true ↔
      ((classify_risk defaultSettings x).1 = RiskLevel.HIGH ∨
        (classify_risk defaultSettings x).1 = RiskLevel.CRITICAL)) ∧
    classify_risk defaultSettings (69999/1000) = (RiskLevel.MEDIUM, false) ∧
    classify_risk defaultSettings 70 = (RiskLevel.HIGH, true) ∧
    classify_risk defaultSettings (89999/1000) = (RiskLevel.HIGH, true) ∧
    classify_risk defaultSettings 90 = (RiskLevel.CRITICAL, true) := by
  refine ⟨?_, ?_, ?_, ?_, ?_, ?_, ?_, ?_, ?_⟩
  · intro x hx
    simp only [classify_risk, defaultSettings_high, defaultSettings_medium]
    split_ifs <;> first | rfl | (exfalso; simp only [ge_iff_le, not_le] at *; linarith)
  · intro x hx hx90
    simp only [classify_risk, defaultSettings_high, defaultSettings_medium]
    split_ifs <;> first | rfl | (exfalso; simp only [ge_iff_le, not_le] at *; linarith)
  · intro x hx hx70
    simp only [classify_risk, defaultSettings_high, defaultSettings_medium]
    split_ifs <;> first | rfl | (exfalso; simp only [ge_iff_le, not_le] at *; linarith)
  · intro x hx
    simp only [classify_risk, defaultSettings_high, defaultSettings_medium]
    split_ifs <;> first | rfl | (exfalso; simp only [ge_iff_le, not_le] at *; linarith)
  · intro x
    simp only [classify_risk, defaultSettings_high, defaultSettings_medium]
    split_ifs <;> simp
  · norm_num [classify_risk, defaultSettings_high, defaultSettings_medium]
  · norm_num [classify_risk, defaultSettings_high, defaultSettings_medium]
  · norm_num [classify_risk, defaultSettings_high, defaultSettings_medium]
  · norm_num [classify_risk, defaultSettings_high, defaultSettings_medium]

/-- Witness for C2: the HIGH band applied at the concrete score 75. -/
theorem C2_classification_witness :
    classify_risk defaultSettings 75 = (RiskLevel.HIGH, true) :=
  C2_classification.2.1 75 (by norm_num) (by norm_num)

theorem round1_clamp_mem (x : ℚ) :
    0 ≤ round1 (max 0 (min 100 x)) ∧ round1 (max 0 (min 100 x)) ≤ 100 := by
  constructor
  · exact round1_nonneg _ (le_max_left _ _)
  · exact round1_le_100 _ (max_le (by norm_num) (min_le_left _ _))

/-- C3: the deterministic score is clamped to [0,100] for every input
combination (here proved for all inputs, with no range hypotheses at all,
which covers the claim's [0,1]-constrained inputs), and the all-unknown /
no-reputation / no-indicator input scores exactly 50.0. -/
theorem C3_deterministic_score_bounds :
    (∀ (spf_pass dkim_pass dmarc_pass : Option Bool) (sender_reputation : Option ℚ)
      (indicators : List SuspiciousIndicator),
      0 ≤ calculate_deterministic_score spf_pass dkim_pass dmarc_pass sender_reputation indicators ∧
      calculate_deterministic_score spf_pass dkim_pass dmarc_pass sender_reputation indicators ≤ 100) ∧
    calculate_deterministic_score none none none none [] = 50 := by
  constructor
  · intro spf dkim dmarc rep inds
    exact round1_clamp_mem _
  · have h : round1 ((50 : ℚ)) = 50 := by exact_mod_cast round1_intCast 50
    norm_num [calculate_deterministic_score, h]

/-- The authentication term exactly as the spec's §4.1 states it: each
non-unknown mechanism is a check, each `fail` a penalty, and with at least
one check the term is `((checks − penalties)/checks − 0.5) × 30`, else 0.
Spec-side definition, compared against the source-derived
`calculate_deterministic_score`. -/
def auth_term_spec (spf_pass dkim_pass dmarc_pass : Option Bool) : ℚ :=
  let checks : ℕ :=
    (if spf_pass ≠ none then 1 else 0) + (if dkim_pass ≠ none then 1 else 0) +
      (if dmarc_pass ≠ none then 1 else 0)
  let penalties : ℕ :=
    (if spf_pass = some false then 1 else 0) + (if dkim_pass = some false then 1 else 0) +
      (if dmarc_pass = some false then 1 else 0)
  if checks = 0 then 0 else (((checks : ℚ) - (penalties : ℚ)) / (checks : ℚ) - 1/2) * 30

set_option maxHeartbeats 1600000 in
/-- C4: with no reputation and no indicators the deterministic score is the
baseline 50 plus exactly the spec's authentication term, for every SPF/DKIM/
DMARC combination; in particular SPF=fail alone yields exactly 35.0. -/
theorem C4_auth_term :
    (∀ spf_pass dkim_pass dmarc_pass : Option Bool,
      calculate_deterministic_score spf_pass dkim_pass dmarc_pass none [] =
        50 + auth_term_spec spf_pass dkim_pass dmarc_pass) ∧
    calculate_deterministic_score (some false) none none none [] = 35 := by
  have h35 : round1 ((35 : ℚ)) = 35 := by exact_mod_cast round1_intCast 35
  have h45 : round1 ((45 : ℚ)) = 45 := by exact_mod_cast round1_intCast 45
  have h50 : round1 ((50 : ℚ)) = 50 := by exact_mod_cast round1_intCast 50
  have h55 : round1 ((55 : ℚ)) = 55 := by exact_mod_cast round1_intCast 55
  have h65 : round1 ((65 : ℚ)) = 65 := by exact_mod_cast round1_intCast 65
  have hb : ∀ o : Option Bool, o = none ∨ o = some false ∨ o = some true := by
    intro o
    rcases o with _ | b
    · exact Or.inl rfl
    · rcases b
      · exact Or.inr (Or.inl rfl)
      · exact Or.inr (Or.inr rfl)
  constructor
  · intro spf dkim dmarc
    rcases hb spf with rfl | rfl | rfl <;> rcases hb dkim with rfl | rfl | rfl <;>
      rcases hb dmarc with rfl | rfl | rfl <;>
      simp only [calculate_deterministic_score, auth_term_spec, Option.isSome_none,
        Option.isSome_some, reduceCtorEq, ne_eq, not_false_iff, eq_self_iff_true,
        not_true, if_true, if_false] <;>
      norm_num [h35, h45, h50, h55, h65]
  · simp only [calculate_deterministic_score, Option.isSome_none, Option.isSome_some,
      reduceCtorEq, ne_eq, not_false_iff, eq_self_iff_true, not_true, if_true, if_false]
    norm_num [h35]

/-- The indicator penalty sum exactly as the spec's §4.1 states it: the sum
over all indicators of `confidence × type_weight × 10`. Spec-side
definition, compared against the source-derived fold. -/
def indicator_penalty_spec (indicators : List SuspiciousIndicator) : ℚ :=
  (indicators.map (fun i => i.confidence * type_weights i.type * 10)).sum

theorem foldl_penalty_eq (indicators : List SuspiciousIndicator) (a : ℚ) :
    indicators.foldl
      (fun acc indicator => acc + indicator.confidence * type_weights indicator.type * 10) a =
      a + indicator_penalty_spec indicators := by
  induction indicators generalizing a with
  | nil => simp [indicator_penalty_spec]
  | cons i t ih =>
    simp only [List.foldl_cons, indicator_penalty_spec, List.map_cons, List.sum_cons]
    rw [ih]
    simp only [indicator_penalty_spec]
    ring

/-- C5: the indicator term adds, to the rest of the score, the sum over all
indicators of `confidence × type_weight × 10` clamped to at most 40, with
the type-weight table URL 1.0, EMAIL 0.8, ATTACHMENT 1.2, CONTENT 0.7,
HEADER 0.5; and a single URL indicator of confidence 0.9 with no other
signal yields exactly 59.0. -/
theorem C5_indicator_term :
    (type_weights IndicatorType.URL = 1 ∧ type_weights IndicatorType.EMAIL = 8/10 ∧
      type_weights IndicatorType.ATTACHMENT = 12/10 ∧
      type_weights IndicatorType.CONTENT = 7/10 ∧ type_weights IndicatorType.HEADER = 5/10) ∧
    (∀ indicators : List SuspiciousIndicator,
      calculate_deterministic_score none none none none indicators =
        round1 (max 0 (min 100 (50 + min (indicator_penalty_spec indicators) 40)))) ∧
    calculate_deterministic_score none none none none
      [{ type := IndicatorType.URL, value := "http://example.com", reason := "r",
         confidence := 9/10 }] = 59 := by
  have h59 : round1 ((59 : ℚ)) = 59 := by exact_mod_cast round1_intCast 59
  refine ⟨by norm_num [type_weights], ?_, ?_⟩
  · intro inds
    rcases inds with _ | ⟨i, t⟩
    · norm_num [calculate_deterministic_score, indicator_penalty_spec]
    · norm_num [calculate_deterministic_score, foldl_penalty_eq, indicator_penalty_spec,
        List.cons_ne_nil]
  · norm_num [calculate_deterministic_score, type_weights, h59]

theorem map_eraseIdx_comm {α β : Type} (f : α → β) :
    ∀ (l : List α) (k : ℕ), (l.eraseIdx k).map f = (l.map f).eraseIdx k := by
  intro l
  induction l with
  | nil => intro k; simp
  | cons a t ih =>
    intro k
    cases k with
    | zero => simp [List.eraseIdx]
    | succ n => simp [List.eraseIdx, ih n]

/-- C6: if item `k` of a batch fails anywhere in its pipeline, the bulk
endpoint still returns one result per input in input order; item `k`'s
entry is the synthetic degraded assessment (score 50.0, MEDIUM, reasoning
stating the analysis failed, zero indicators); and deleting item `k` from
the batch leaves every sibling's result unchanged (the result list is
exactly the full result list with entry `k` deleted). -/
theorem C6_bulk_isolation
    (pipeline : EmailAnalysisRequest → Except String PhishingAnalysisResponse)
    (emails : List EmailAnalysisRequest) (k : ℕ) (e : EmailAnalysisRequest) (msg : String)
    (hlen : 1 ≤ emails.length ∧ emails.length ≤ 50)
    (hk : emails[k]? = some e) (hfail : pipeline e = Except.error msg) :
    (analyze_emails_bulk pipeline emails).length = emails.length ∧
    (analyze_emails_bulk pipeline emails)[k]? = some (create_error_response msg) ∧
    (create_error_response msg).risk_score = 50 ∧
    (create_error_response msg).risk_level = RiskLevel.MEDIUM ∧
    (create_error_response msg).gemini_analysis.reasoning = "Analysis failed: " ++ msg ∧
    (create_error_response msg).suspicious_indicators = [] ∧
    analyze_emails_bulk pipeline (emails.eraseIdx k) =
      (analyze_emails_bulk pipeline emails).eraseIdx k := by
  refine ⟨?_, ?_, rfl, rfl, rfl, rfl, ?_⟩
  · simp [analyze_emails_bulk]
  · simp [analyze_emails_bulk, List.getElem?_map, hk, hfail]
  · exact map_eraseIdx_comm _ emails k

/-- A batch item whose pipeline always raises (witness data for C6). -/
def bulkWitnessFail : EmailAnalysisRequest := { raw_email := "bad" }

/-- A batch item whose pipeline succeeds (witness data for C6). -/
def bulkWitnessOk : EmailAnalysisRequest := { raw_email := "good" }

/-- The healthy item's assessment in the C6 witness run. -/
def bulkWitnessOkResponse : PhishingAnalysisResponse :=
  { risk_score := 56
    risk_level := RiskLevel.MEDIUM
    is_phishing := false
    email_metadata := {}
    deterministic_checks := { score := 80 }
    gemini_analysis := { phishing_likelihood := 20, reasoning := "ok", model_confidence := 9/10 } }

/-- A concrete pipeline for the C6 witness: raises on the bad item only. -/
def bulkWitnessPipeline (e : EmailAnalysisRequest) :
    Except String PhishingAnalysisResponse :=
  if e.raw_email = "bad" then Except.error "boom" else Except.ok bulkWitnessOkResponse

/-- Witness for C6: a two-item batch whose first item fails. -/
theorem C6_bulk_isolation_witness :
    (analyze_emails_bulk bulkWitnessPipeline [bulkWitnessFail, bulkWitnessOk]).length =
      [bulkWitnessFail, bulkWitnessOk].length ∧
    (analyze_emails_bulk bulkWitnessPipeline [bulkWitnessFail, bulkWitnessOk])[0]? =
      some (create_error_response "boom") ∧
    (create_error_response "boom").risk_score = 50 ∧
    (create_error_response "boom").risk_level = RiskLevel.MEDIUM ∧
    (create_error_response "boom").gemini_analysis.reasoning = "Analysis failed: " ++ "boom" ∧
    (create_error_response "boom").suspicious_indicators = [] ∧
    analyze_emails_bulk bulkWitnessPipeline ([bulkWitnessFail, bulkWitnessOk].eraseIdx 0) =
      (analyze_emails_bulk bulkWitnessPipeline [bulkWitnessFail, bulkWitnessOk]).eraseIdx 0 :=
  C6_bulk_isolation bulkWitnessPipeline [bulkWitnessFail, bulkWitnessOk] 0 bulkWitnessFail
    "boom" ⟨by norm_num, by norm_num⟩ rfl rfl

/-- A high-confidence deterministic indicator (witness data for C7). -/
def highConfIndicator : SuspiciousIndicator :=
  { type := IndicatorType.URL, value := "http://evil.example", reason := "Suspicious TLD",
    confidence := 9/10 }

/-- C7 counterexample: two failure legs contradict the claim. When the
Gemini call raises and no prior indicator has confidence above 0.7, the
fallback keeps the neutral likelihood 50.0 but carries confidence 0.4, not
0.1. And on the malformed-(non-JSON)-response leg, even with a prior
indicator of confidence 0.9, the analyzer returns the text-extraction
result — likelihood is the regex-scraped 99, not
`min(80, 50 + 10×1) = 60`, with confidence 0.3, not 0.1. -/
theorem C7_fallback_counterexample :
    (get_fallback_analysis []).phishing_likelihood = 50 ∧
    (get_fallback_analysis []).model_confidence = 4/10 ∧
    ¬ (get_fallback_analysis []).model_confidence = 1/10 ∧
    (gemini_failure_result [highConfIndicator]
      (GeminiFailure.non_json (some 99) [] "risk 99")).phishing_likelihood = 99 ∧
    ¬ (gemini_failure_result [highConfIndicator]
        (GeminiFailure.non_json (some 99) [] "risk 99")).phishing_likelihood =
      min 80 (50 + 10 * 1) ∧
    (gemini_failure_result [highConfIndicator]
      (GeminiFailure.non_json (some 99) [] "risk 99")).model_confidence = 3/10 := by
  refine ⟨?_, ?_, ?_, ?_, ?_, ?_⟩ <;>
    norm_num [get_fallback_analysis, gemini_failure_result, extract_fallback_from_text]

/-- C7 as amended: on every provider-failure leg the fusion engine receives
a well-formed analysis, never an exception, and its confidence is at most
0.4. On the call-exception leg (timeout, API error) the fallback's
likelihood is `min(80, 50 + 10 × n)` when `n ≥ 1` prior deterministic
indicators have confidence above 0.7, and otherwise the neutral 50.0 with
confidence 0.4. On the malformed-(non-JSON)-response leg the analyzer
returns the text-extraction fallback: confidence 0.3 and likelihood the
regex-scraped score clamped to [0,100], or 50.0 when no score is found.
The 50.0 / 0.1 default is returned when the client is unavailable
(uninitialized) or when field or text extraction itself raises. -/
theorem C7_fallback_amended (deterministic_indicators : List SuspiciousIndicator)
    (f : GeminiFailure) :
    (gemini_failure_result deterministic_indicators f).model_confidence ≤ 4/10 ∧
    (f = GeminiFailure.api_error →
      (deterministic_indicators.filter (fun ind => decide (ind.confidence > 7/10)) ≠ [] →
        (gemini_failure_result deterministic_indicators f).phishing_likelihood =
          min 80 (50 + ((deterministic_indicators.filter
            (fun ind => decide (ind.confidence > 7/10))).length : ℚ) * 10)) ∧
      (deterministic_indicators.filter (fun ind => decide (ind.confidence > 7/10)) = [] →
        (gemini_failure_result deterministic_indicators f).phishing_likelihood = 50 ∧
        (gemini_failure_result deterministic_indicators f).model_confidence = 4/10)) ∧
    (∀ (score_match : Option ℚ) (concern_matches : List String) (response_text : String),
      f = GeminiFailure.non_json score_match concern_matches response_text →
      (gemini_failure_result deterministic_indicators f).model_confidence = 3/10 ∧
      (gemini_failure_result deterministic_indicators f).phishing_likelihood =
        (match score_match with
          | some s => max 0 (min 100 s)
          | none => 50)) ∧
    (f = GeminiFailure.extraction_error ∨ f = GeminiFailure.uninitialized →
      gemini_failure_result deterministic_indicators f = get_default_analysis ∧
      get_default_analysis.phishing_likelihood = 50 ∧
      get_default_analysis.model_confidence = 1/10) := by
  cases f with
  | api_error =>
    refine ⟨?_, ?_, ?_, ?_⟩
    · simp only [gemini_failure_result, get_fallback_analysis]
      norm_num
    · intro _
      constructor
      · intro hne
        have hinds : deterministic_indicators ≠ [] := by
          intro h
          apply hne
          simp [h]
        simp only [gemini_failure_result, get_fallback_analysis,
          if_pos (And.intro hinds hne)]
      · intro hempty
        simp [gemini_failure_result, get_fallback_analysis, hempty]
    · intro _ _ _ h
      simp at h
    · intro hor
      rcases hor with h | h <;> simp at h
  | non_json sm cm txt =>
    refine ⟨?_, ?_, ?_, ?_⟩
    · simp only [gemini_failure_result, extract_fallback_from_text]
      norm_num
    · intro h
      simp at h
    · intro sm2 cm2 txt2 h
      cases h
      refine ⟨rfl, ?_⟩
      rcases sm with _ | s <;> rfl
    · intro hor
      rcases hor with h | h <;> simp at h
  | extraction_error =>
    refine ⟨?_, ?_, ?_, ?_⟩
    · simp only [gemini_failure_result, get_default_analysis]
      norm_num
    · intro h
      simp at h
    · intro _ _ _ h
      simp at h
    · intro _
      exact ⟨rfl, rfl, rfl⟩
  | uninitialized =>
    refine ⟨?_, ?_, ?_, ?_⟩
    · simp only [gemini_failure_result, get_default_analysis]
      norm_num
    · intro h
      simp at h
    · intro _ _ _ h
      simp at h
    · intro _
      exact ⟨rfl, rfl, rfl⟩

/-- Witness for C7 (amended): with one prior indicator of confidence 0.9
the call-exception fallback likelihood is `min(80, 50 + 10×1)`; a non-JSON
response carrying a scraped score has confidence 0.3; the uninitialized
client receives the default analysis. -/
theorem C7_fallback_amended_witness :
    (gemini_failure_result [highConfIndicator] GeminiFailure.api_error).phishing_likelihood =
      min 80 (50 + (([highConfIndicator].filter
        (fun ind => decide (ind.confidence > 7/10))).length : ℚ) * 10) ∧
    (gemini_failure_result [highConfIndicator]
      (GeminiFailure.non_json (some 99) [] "risk 99")).model_confidence = 3/10 ∧
    gemini_failure_result [] GeminiFailure.uninitialized = get_default_analysis :=
  ⟨((C7_fallback_amended [highConfIndicator] GeminiFailure.api_error).2.1 rfl).1
      (by norm_num [highConfIndicator]),
    ((C7_fallback_amended [highConfIndicator]
      (GeminiFailure.non_json (some 99) [] "risk 99")).2.2.1 (some 99) [] "risk 99" rfl).1,
    ((C7_fallback_amended [] GeminiFailure.uninitialized).2.2.2 (Or.inr rfl)).1⟩

theorem adjust_score_decomp (base_score : ℚ) (context : Context) (current_hour : ℕ) :
    adjust_score_for_context base_score context current_hour =
      max 0 (min 100 (base_score +
        (if py_lower context.user_bank ≠ "" ∧
            str_contains (py_lower context.email_content) (py_lower context.user_bank) = true
          then 5 else 0) +
        (if current_hour < 6 ∨ current_hour > 22 then 3 else 0) +
        (if context.user_account_type = "business" ∧
            str_contains (py_lower context.email_content) "personal" = true
          then 5 else 0))) := by
  simp only [adjust_score_for_context]
  split_ifs <;> exact congrArg (fun z : ℚ => max 0 (min 100 z)) (by ring)

/-- C8 counterexample: the context adjustment reads the ambient wall-clock
hour (`datetime.utcnow().hour` in the source, the explicit `current_hour`
argument of the embedding), so two runs on the identical `(base, context)`
input give different results at hour 3 and hour 12 — the adjustment does
not depend only on the supplied context parameter. -/
theorem C8_wallclock_counterexample :
    adjust_score_for_context 50 { } 3 ≠ adjust_score_for_context 50 { } 12 := by
  have hbank : ¬(py_lower "" ≠ "" ∧ str_contains (py_lower "") (py_lower "") = true) := by
    decide
  have hacct : ¬(("" : String) = "business" ∧ str_contains (py_lower "") "personal" = true) := by
    decide
  rw [adjust_score_decomp, adjust_score_decomp]
  norm_num [hbank, hacct]

/-- C8 as amended: the contextual adjustment is a deterministic function of
the blended inputs *and the current UTC hour*: it decomposes into three
additive deltas (+5 bank mention, +3 outside the 06:00-22:00 window, +5
business/personal mismatch) followed by the clamp, and two runs agree
whenever their wall-clock hours fall on the same side of the business-hours
window — but the hour is read from the wall clock, not injected through the
context parameter. -/
theorem C8_context_determinism_amended :
    (∀ (base_score : ℚ) (context : Context) (current_hour : ℕ),
      adjust_score_for_context base_score context current_hour =
        max 0 (min 100 (base_score +
          (if py_lower context.user_bank ≠ "" ∧
              str_contains (py_lower context.email_content) (py_lower context.user_bank) = true
            then 5 else 0) +
          (if current_hour < 6 ∨ current_hour > 22 then 3 else 0) +
          (if context.user_account_type = "business" ∧
              str_contains (py_lower context.email_content) "personal" = true
            then 5 else 0)))) ∧
    (∀ (base_score : ℚ) (context : Context) (h₁ h₂ : ℕ),
      ((h₁ < 6 ∨ h₁ > 22) ↔ (h₂ < 6 ∨ h₂ > 22)) →
      adjust_score_for_context base_score context h₁ =
        adjust_score_for_context base_score context h₂) := by
  refine ⟨adjust_score_decomp, ?_⟩
  intro base ctx h₁ h₂ hiff
  rw [adjust_score_decomp, adjust_score_decomp, if_congr hiff rfl rfl]

/-- Witness for C8 (amended): hours 2 and 23 are both outside business
hours, so the adjustment agrees on them. -/
theorem C8_context_determinism_amended_witness :
    adjust_score_for_context 50 { } 2 = adjust_score_for_context 50 { } 23 :=
  C8_context_determinism_amended.2 50 { } 2 23 (by norm_num)

/-- The Gemini analysis entering the context-adjustment step in the C9
runs. -/
def auditGemini : GeminiAnalysis :=
  { phishing_likelihood := 20, reasoning := "sem", model_confidence := 9/10 }

/-- The caller-supplied context of the C9 runs (no bank, no account type). -/
def auditContext : Context := { email_content := "x" }

/-- The deterministic result entering fusion in the C9 runs. -/
def auditChecks : DeterministicChecks := { score := 80 }

theorem audit_adjust_value :
    adjust_score_for_context auditGemini.phishing_likelihood auditContext 3 = 23 := by
  have h1 : ¬(py_lower "" ≠ "" ∧ str_contains (py_lower "x") (py_lower "") = true) := by decide
  have h2 : ¬(("" : String) = "business" ∧ str_contains (py_lower "x") "personal" = true) := by
    decide
  rw [adjust_score_decomp]
  norm_num [auditContext, auditGemini, h1, h2]

theorem audit_sync_value :
    apply_context_adjustment_sync auditGemini auditContext 3 =
      { auditGemini with phishing_likelihood := 23 } := by
  simp only [apply_context_adjustment_sync, audit_adjust_value]
  norm_num [auditGemini]

/-- C9 counterexample: on the bulk path (`analyze_email_sync`), a context
adjustment that changes the score leaves the semantic reasoning text
untouched, so the original score is not retrievable from the response; and
the delta is added to the semantic likelihood before blending, not to the
blended score (final 57.2, not 56 + 3 = 59). -/
theorem C9_audit_counterexample :
    (apply_context_adjustment_sync auditGemini auditContext 3).phishing_likelihood ≠
      auditGemini.phishing_likelihood ∧
    (apply_context_adjustment_sync auditGemini auditContext 3).reasoning =
      auditGemini.reasoning ∧
    (calculate_final_score defaultSettings auditChecks
        (apply_context_adjustment_sync auditGemini auditContext 3)).1 ≠
      (calculate_final_score defaultSettings auditChecks auditGemini).1 + 3 := by
  have h572 : round1 ((286 : ℚ)/5) = 286/5 := by
    have h : ((286 : ℚ)/5) = ((572 : ℤ) : ℚ)/10 := by norm_num
    rw [h, round1_div10]
  have h56 : round1 ((56 : ℚ)) = 56 := by exact_mod_cast round1_intCast 56
  refine ⟨?_, ?_, ?_⟩
  · rw [audit_sync_value]
    norm_num [auditGemini]
  · rw [audit_sync_value]
  · rw [audit_sync_value]
    norm_num [calculate_final_score, defaultSettings_dw, defaultSettings_gw, auditGemini,
      auditChecks, h572, h56]

/-- C9 as amended: the contextual deltas are applied to the semantic
likelihood before blending (both paths replace `phishing_likelihood` with
the adjusted value, in place); on the single-item path a score-changing
adjustment appends the original and adjusted scores to the semantic
reasoning text, while the bulk path never touches the reasoning text and
so adjusts silently. -/
theorem C9_adjustment_paths_amended :
    (∀ (g : GeminiAnalysis) (context : Context) (current_hour : ℕ),
      (apply_context_adjustment g context current_hour).phishing_likelihood =
        adjust_score_for_context g.phishing_likelihood context current_hour ∧
      (apply_context_adjustment_sync g context current_hour).phishing_likelihood =
        adjust_score_for_context g.phishing_likelihood context current_hour ∧
      (apply_context_adjustment_sync g context current_hour).reasoning = g.reasoning ∧
      (adjust_score_for_context g.phishing_likelihood context current_hour ≠
          g.phishing_likelihood →
        (apply_context_adjustment g context current_hour).reasoning =
          g.reasoning ++ " (Score adjusted from " ++ format1 g.phishing_likelihood ++ " to " ++
            format1 (adjust_score_for_context g.phishing_likelihood context current_hour) ++
            " based on context)")) ∧
    (∀ (d : DeterministicChecks) (g : GeminiAnalysis) (context : Context) (current_hour : ℕ),
      calculate_final_score defaultSettings d
          (apply_context_adjustment_sync g context current_hour) =
        calculate_final_score defaultSettings d
          { g with phishing_likelihood :=
              adjust_score_for_context g.phishing_likelihood context current_hour }) := by
  constructor
  · intro g ctx h
    refine ⟨?_, ?_, ?_, ?_⟩
    · simp only [apply_context_adjustment]
      split_ifs with hc
      · rfl
      · exact (not_ne_iff.mp hc).symm
    · simp only [apply_context_adjustment_sync]
      split_ifs with hc
      · rfl
      · exact (not_ne_iff.mp hc).symm
    · simp only [apply_context_adjustment_sync]
      split_ifs <;> rfl
    · intro hne
      simp only [apply_context_adjustment, if_pos hne]
  · intro d g ctx h
    simp only [apply_context_adjustment_sync]
    split_ifs with hc
    · rfl
    · rw [not_ne_iff.mp hc]

/-- Witness for C9 (amended): the single-item path records the 20.0 → 23.0
adjustment in the reasoning text, applied at the concrete audit run. -/
theorem C9_adjustment_paths_amended_witness :
    (apply_context_adjustment auditGemini auditContext 3).reasoning =
      auditGemini.reasoning ++ " (Score adjusted from " ++
        format1 auditGemini.phishing_likelihood ++ " to " ++
        format1 (adjust_score_for_context auditGemini.phishing_likelihood auditContext 3) ++
        " based on context)" :=
  (C9_adjustment_paths_amended.1 auditGemini auditContext 3).2.2.2
    (by rw [audit_adjust_value]; norm_num [auditGemini])

/-- C10: for every syntactically valid URL whose parsed host ends with any
allow-listed domain string, `analyze_url` returns not-suspicious with
confidence 0.1 and reason "Legitimate domain", before and regardless of
every other suspicion signal (TLD, regex patterns, homograph characters,
length, subdomain depth, path keywords). -/
theorem C10_allowlist_suffix_override (u : ParsedUrl) (hvalid : u.valid = true)
    (hsuffix : LEGITIMATE_DOMAINS.any
      (fun legitimate => ends_with (py_lower u.netloc) legitimate) = true) :
    analyze_url u = (false, 1/10, ["Legitimate domain"]) := by
  simp only [analyze_url, hvalid]
  norm_num [hsuffix]

/-- A phishing host that is not `chase.com` but ends with it (witness data
for C10). -/
def evilChaseUrl : ParsedUrl :=
  { url := "http://evil-chase.com/login"
    valid := true
    netloc := "evil-chase.com"
    path := "/login"
    pattern_matches := [false, false, false, false, false, false] }

/-- Witness for C10: `evil-chase.com` ends with the allow-listed
`chase.com`, so the URL is scored not-suspicious despite its "login" path
keyword. -/
theorem C10_allowlist_suffix_override_witness :
    analyze_url evilChaseUrl = (false, 1/10, ["Legitimate domain"]) :=
  C10_allowlist_suffix_override evilChaseUrl rfl (by decide)

end PhishingDetector
